import Mathlib

/-!
Shallow embedding of the billing subsystem of the `client-ph` pharmacy
point-of-sale client, translated from `src/pages/Billing.tsx`.

Conventions of the embedding:
* JavaScript numbers that hold money are modelled as `Rat`; quantities and
  stock counts are modelled as `Int` (the code only ever adds integer deltas).
* The source stores both `_id` and `id` on `Medicine`/`Inventory`; `addToCart`
  always sets the two fields to the same value (`medicineData._id ||
  medicineData.id`), so every cart item satisfies `_id = id` and the embedding
  collapses the pair into a single `id` field.  The coalescings
  `item.medicine._id || item.medicine.id` therefore become `item.medicine.id`.
* JavaScript falsy-string coalescing (`s || t`) is modelled as
  `if s = "" then t else s`.
* Network calls (`getMedicineBatches`, `createSale`) are modelled by passing
  their result in as an argument (`Option _`; `none` models a failed fetch or
  an unsuccessful response).
-/

namespace ClientPh

/-- The `Medicine` record as constructed in `addToCart`
(`Billing.tsx` lines 84–96); `_id`/`id` collapsed into `id`. -/
structure Medicine where
  id : String
  name : String
  genericName : String
  manufacturer : String
  category : String
  dosageForm : String
  strength : String
  barcode : String
  prescriptionRequired : Bool
  status : String
  deriving DecidableEq

/-- The `Inventory` record as constructed in `addToCart`
(`Billing.tsx` lines 98–109); `_id`/`id` collapsed into `id`. -/
structure Inventory where
  id : String
  medicine : String
  batchNumber : String
  manufacturingDate : String
  expiryDate : String
  quantity : Int
  purchasePrice : Rat
  sellingPrice : Rat
  status : String
  deriving DecidableEq

/-- One batch as delivered by `searchMedicinesForBilling` /
`getMedicineBatches` inside `medicineData.batches`. -/
structure BatchInfo where
  batchId : String
  batchNumber : String
  manufacturingDate : String
  expiryDate : String
  quantity : Int
  sellingPrice : Rat
  deriving DecidableEq

/-- The search-result payload `medicineData` consumed by `addToCart`:
catalog fields plus `hasStock`, `availableStock` and the FEFO-sorted
`batches` list. -/
structure MedicineData where
  id : String
  name : String
  genericName : String
  manufacturer : String
  category : String
  dosageForm : String
  strength : String
  barcode : String
  prescriptionRequired : Bool
  status : String
  hasStock : Bool
  availableStock : Int
  batches : List BatchInfo
  deriving DecidableEq

/-- Structure `CartItem` (`Billing.tsx` lines 21-26). -/
structure CartItem where
  medicine : Medicine
  inventory : Inventory
  quantity : Int
  unitPrice : Rat
  deriving DecidableEq

/-- The two stock-related failure modes `addToCart`/`updateQuantity` report
via `toast.error`: `"No available stock for this medicine"` and
`"Insufficient stock. Available: <n>"` (the latter carries the available
quantity shown to the user). -/
inductive StockError where
  | noStock
  | insufficientStock (available : Int)
  deriving DecidableEq

/-- Result of a cart operation: the next cart state (`setCart` argument, or
the unchanged cart when the operation bails out) and the error reported, if
any. -/
structure CartResult where
  cart : List CartItem
  err : Option StockError
  deriving DecidableEq

/-- The `Medicine` literal built in `addToCart` (lines 84-96); the falsy-string
fallback of the source, `medicineData.status || "active"`, becomes an
emptiness test. -/
def mkMedicine (medicineData : MedicineData) : Medicine :=
  { id := medicineData.id
    name := medicineData.name
    genericName := medicineData.genericName
    manufacturer := medicineData.manufacturer
    category := medicineData.category
    dosageForm := medicineData.dosageForm
    strength := medicineData.strength
    barcode := medicineData.barcode
    prescriptionRequired := medicineData.prescriptionRequired
    status := if medicineData.status = "" then "active" else medicineData.status }

/-- The `Inventory` literal built in `addToCart` (lines 98–109) from the
selected batch: `purchasePrice` is hard-coded `0`, `status` `"available"`. -/
def mkInventory (medicineData : MedicineData) (selectedBatch : BatchInfo) : Inventory :=
  { id := selectedBatch.batchId
    medicine := (mkMedicine medicineData).id
    batchNumber := selectedBatch.batchNumber
    manufacturingDate := selectedBatch.manufacturingDate
    expiryDate := selectedBatch.expiryDate
    quantity := selectedBatch.quantity
    purchasePrice := 0
    sellingPrice := selectedBatch.sellingPrice
    status := "available" }

/-- Translation of `cart.find(item => (item.medicine._id || item.medicine.id) === mid)`. -/
def findCartItem (cart : List CartItem) (medicineId : String) : Option CartItem :=
  cart.find? (fun item => item.medicine.id == medicineId)

/-- Function `addToCart` (`Billing.tsx` lines 75-142).  Bails out with `noStock` when
`!hasStock || batches.length === 0`; otherwise uses FEFO `batches[0]`.  For a
medicine already in the cart it checks `existingItem.quantity + 1` against the
`availableStock` snapshot carried by the search result and either reports
`insufficientStock` or increments the item; a new medicine is appended with
quantity 1 referencing the selected (earliest-expiry) batch. -/
def addToCart (medicineData : MedicineData) (cart : List CartItem) : CartResult :=
  match medicineData.batches with
  | [] => ⟨cart, some .noStock⟩
  | selectedBatch :: _ =>
    if !medicineData.hasStock then ⟨cart, some .noStock⟩
    else
      let medicine := mkMedicine medicineData
      let inventoryItem := mkInventory medicineData selectedBatch
      match findCartItem cart medicine.id with
      | some existingItem =>
        let totalRequested := existingItem.quantity + 1
        let totalAvailable := medicineData.availableStock
        if totalRequested > totalAvailable then
          ⟨cart, some (.insufficientStock totalAvailable)⟩
        else
          ⟨cart.map (fun item =>
              if item.medicine.id == medicine.id then
                { item with quantity := item.quantity + 1 }
              else item),
            none⟩
      | none =>
        ⟨cart ++ [{ medicine := medicine, inventory := inventoryItem,
                    quantity := 1, unitPrice := selectedBatch.sellingPrice }],
          none⟩

/-- Function `removeFromCart` (lines 181-183): filter keeping items whose medicine id
differs from the given id. -/
def removeFromCart (cart : List CartItem) (medicineId : String) : List CartItem :=
  cart.filter (fun item => item.medicine.id != medicineId)

/-- Translation of `response.data.batches.reduce((sum, batch) => sum + batch.quantity, 0)`. -/
def batchTotal (batches : List BatchInfo) : Int :=
  batches.foldl (fun sum batch => sum + batch.quantity) 0

/-- Function `updateQuantity` (lines 144-179).  Argument `fetched` is the
`getMedicineBatches` response (`none` models a failed fetch or unsuccessful
response, in which case the source logs and skips the stock check).  When the
new quantity would be ≤ 0 the item is removed; when the fetched total is
exceeded the update is refused with `insufficientStock`; otherwise the
quantity of the item is set. -/
def updateQuantity (cart : List CartItem) (medicineId : String) (delta : Int)
    (fetched : Option (List BatchInfo)) : CartResult :=
  match cart.find? (fun item => item.medicine.id == medicineId) with
  | none => ⟨cart, none⟩
  | some item =>
    let newQuantity := item.quantity + delta
    if newQuantity ≤ 0 then
      ⟨removeFromCart cart medicineId, none⟩
    else
      match fetched with
      | some batches =>
        if newQuantity > batchTotal batches then
          ⟨cart, some (.insufficientStock (batchTotal batches))⟩
        else
          ⟨cart.map (fun item =>
              if item.medicine.id == medicineId then
                { item with quantity := newQuantity }
              else item),
            none⟩
      | none =>
        ⟨cart.map (fun item =>
            if item.medicine.id == medicineId then
              { item with quantity := newQuantity }
            else item),
          none⟩

/-- The record returned by `calculateTotals`. -/
structure Totals where
  subtotal : Rat
  discount : Rat
  vatAmount : Rat
  total : Rat
  deriving DecidableEq

/-- Function `calculateTotals` (lines 185-194): subtotal by reduce, percentage
discount, 13% VAT on the discounted amount. -/
def calculateTotals (cart : List CartItem) (discountPercentage : Rat) : Totals :=
  let subtotal := cart.foldl (fun sum item => sum + item.unitPrice * (item.quantity : Rat)) 0
  let discount := subtotal * discountPercentage / 100
  let afterDiscount := subtotal - discount
  let vatRate : Rat := 13
  let vatAmount := afterDiscount * vatRate / 100
  let total := afterDiscount + vatAmount
  ⟨subtotal, discount, vatAmount, total⟩

/-- The payment methods offered by the payment-method `Select`
(lines 488–495). -/
inductive PaymentMethod where
  | cash
  | card
  | esewa
  | khalti
  | mobilePayment
  | credit
  deriving DecidableEq

/-- One element of `saleData.items` (lines 209–216). -/
structure SaleItem where
  medicine : String
  inventory : String
  batchNumber : String
  quantity : Int
  unitPrice : Rat
  subtotal : Rat
  deriving DecidableEq

/-- The `saleData` payload submitted to `apiClient.createSale`
(lines 206–227). -/
structure SaleData where
  customerName : Option String
  customerMobile : Option String
  items : List SaleItem
  subtotal : Rat
  discount : Rat
  discountPercentage : Rat
  vatRate : Rat
  vatAmount : Rat
  totalAmount : Rat
  paymentMethod : PaymentMethod
  paymentStatus : String
  amountPaid : Rat
  amountDue : Rat
  deriving DecidableEq

/-- The component state touched by checkout: the `useState` cells of
`Billing` that `handleCheckout` reads or resets. -/
structure BillingState where
  cart : List CartItem
  customerName : String
  customerMobile : String
  discountPercentage : Rat
  paymentMethod : PaymentMethod
  lastInvoiceId : Option String
  searchQuery : String
  searchResults : List MedicineData
  deriving DecidableEq

/-- The mapping of one cart item to a sale line (lines 209–216): the line
references the medicine of the cart item and its single `inventory` (batch), with
`subtotal = unitPrice * quantity`. -/
def mkSaleItem (item : CartItem) : SaleItem :=
  { medicine := item.medicine.id
    inventory := item.inventory.id
    batchNumber := item.inventory.batchNumber
    quantity := item.quantity
    unitPrice := item.unitPrice
    subtotal := item.unitPrice * (item.quantity : Rat) }

/-- The `saleData` object literal of `handleCheckout` (lines 204–227):
`customerName || undefined` / `customerMobile || undefined` are falsy-string
coalescings, `vatRate` is the hard-coded 13, `paymentStatus` the hard-coded
the hard-coded "paid", `amountPaid` the computed total and `amountDue` the
hard-coded 0. -/
def buildSaleData (s : BillingState) : SaleData :=
  let t := calculateTotals s.cart s.discountPercentage
  { customerName := if s.customerName = "" then none else some s.customerName
    customerMobile := if s.customerMobile = "" then none else some s.customerMobile
    items := s.cart.map mkSaleItem
    subtotal := t.subtotal
    discount := t.discount
    discountPercentage := s.discountPercentage
    vatRate := 13
    vatAmount := t.vatAmount
    totalAmount := t.total
    paymentMethod := s.paymentMethod
    paymentStatus := "paid"
    amountPaid := t.total
    amountDue := 0 }

/-- Observable outcome of `handleCheckout`: bail-out on an empty cart,
success (sale submitted, response successful), or failure (sale submitted but
`createSale` failed / threw; the `catch` branch). -/
inductive CheckoutOutcome where
  | emptyCart
  | success (sale : SaleData) (invoiceId : String)
  | failure (sale : SaleData)
  deriving DecidableEq

/-- Returns `true` exactly on the `success` outcome. -/
def CheckoutOutcome.isSuccess : CheckoutOutcome → Bool
  | .success _ _ => true
  | _ => false

/-- Function `handleCheckout` (lines 196-249).  Argument `response` is the `createSale` result:
`some invoiceId` when `response.success && response.data`, `none` otherwise
(including a thrown error).  On success the component resets `cart`,
`customerName`, `customerMobile`, `discountPercentage`, `searchQuery` and
`searchResults` and records `lastInvoiceId`; on the empty-cart bail-out and in
the `catch` branch no state cell is written. -/
def handleCheckout (s : BillingState) (response : Option String) :
    BillingState × CheckoutOutcome :=
  if s.cart.length = 0 then
    (s, .emptyCart)
  else
    let saleData := buildSaleData s
    match response with
    | some invoiceId =>
      ({ s with cart := [], customerName := "", customerMobile := "",
                discountPercentage := 0, lastInvoiceId := some invoiceId,
                searchQuery := "", searchResults := [] },
        .success saleData invoiceId)
    | none => (s, .failure saleData)

/-- Cart-state invariant: every item has quantity at least 1, and medicine ids
are pairwise distinct (at most one cart item per medicine identity). -/
def CartInv (cart : List CartItem) : Prop :=
  (∀ item ∈ cart, 1 ≤ item.quantity)
  ∧ cart.Pairwise (fun a b => a.medicine.id ≠ b.medicine.id)

/-- Total quantity allocated from the batch `batchId` across a list of
submitted sale payloads. -/
def allocatedFrom (sales : List SaleData) (batchId : String) : Int :=
  (sales.map (fun sale =>
    ((sale.items.filter (fun l => l.inventory == batchId)).map SaleItem.quantity).sum)).sum

/-- Sample catalog entry used by the concrete examples. -/
def exMedicine (id : String) : Medicine :=
  ⟨id, "Sample", "Sample", "Acme Pharma", "general", "tablet", "500mg", "", false, "active"⟩

/-- Sample inventory row used by the concrete examples. -/
def exInventory (batchId medicineId : String) (quantity : Int) (price : Rat) : Inventory :=
  ⟨batchId, medicineId, "BN-" ++ batchId, "2024-01-01", "2027-01-01",
    quantity, 0, price, "available"⟩

/-- Sample cart item used by the concrete examples. -/
def exCartItem (medicineId batchId : String) (quantity : Int) (price : Rat) : CartItem :=
  ⟨exMedicine medicineId, exInventory batchId medicineId quantity price, quantity, price⟩

/-- Sample batch used by the concrete examples. -/
def exBatch (batchId expiry : String) (quantity : Int) (price : Rat) : BatchInfo :=
  ⟨batchId, "BN-" ++ batchId, "2024-01-01", expiry, quantity, price⟩

/-- Sample search payload used by the concrete examples. -/
def exMedicineData (id : String) (availableStock : Int) (batches : List BatchInfo) :
    MedicineData :=
  ⟨id, "Sample", "Sample", "Acme Pharma", "general", "tablet", "500mg", "", false, "active",
    true, availableStock, batches⟩

/-- C1 example: medicine with an earliest-expiring batch of quantity 1 and a
later batch of quantity 5, so six units are available in total. -/
def c1MData : MedicineData :=
  exMedicineData "m1" 6 [exBatch "b1" "2026-01-01" 1 10, exBatch "b2" "2027-01-01" 5 10]

/-- C1 example: first add. -/
def c1CartA : CartResult := addToCart c1MData []

/-- C1 example: second add of the same medicine. -/
def c1CartB : CartResult := addToCart c1MData c1CartA.cart

/-- C1 example: the component state at checkout time. -/
def c1State : BillingState := ⟨c1CartB.cart, "", "", 0, .cash, none, "", []⟩

/-- C1 witness data: the single-batch item the first add appends. -/
def c1NewItem : CartItem :=
  { medicine := mkMedicine c1MData
    inventory := mkInventory c1MData (exBatch "b1" "2026-01-01" 1 10)
    quantity := 1
    unitPrice := (exBatch "b1" "2026-01-01" 1 10).sellingPrice }

/-- Generic placeholder cart item for instantiating unused binders. -/
def dummyItem : CartItem := exCartItem "zz" "zz" 1 1

/-- C3 example: a single batch of quantity 10, ten units available. -/
def c3MData : MedicineData := exMedicineData "m1" 10 [exBatch "b1" "2027-01-01" 10 7]

/-- C3 example: `n` consecutive `addToCart` clicks by one cashier, stopping at
the first error. -/
def c3AddLoop : Nat → CartResult
  | 0 => ⟨[], none⟩
  | n + 1 =>
    let r := c3AddLoop n
    match r.err with
    | some _ => r
    | none => addToCart c3MData r.cart

/-- C3 example: the sale submitted by the first cashier after six adds. -/
def c3SaleA : SaleData := buildSaleData ⟨(c3AddLoop 6).cart, "", "", 0, .cash, none, "", []⟩

/-- C3 example: the sale submitted by a second concurrent cashier who ran the
same six adds against the same availability snapshot. -/
def c3SaleB : SaleData := buildSaleData ⟨(c3AddLoop 6).cart, "", "", 0, .card, none, "", []⟩

/-- C3 witness data: batch of quantity 5. -/
def c3WBatch : BatchInfo := exBatch "b1" "2027-01-01" 5 7

/-- C3 witness data: four units available. -/
def c3WData : MedicineData := exMedicineData "m1" 4 [c3WBatch]

/-- C3 witness data: cart item of quantity 2. -/
def c3WItem : CartItem := exCartItem "m1" "b1" 2 7

/-- C3 witness data: one-item cart. -/
def c3WCart : List CartItem := [c3WItem]

/-- C4 example: batch of quantity 2. -/
def c4Batch : BatchInfo := exBatch "b1" "2027-01-01" 2 12

/-- C4 example: two units available in total. -/
def c4MData : MedicineData := exMedicineData "m1" 2 [c4Batch]

/-- C4 example: cart item already at quantity 2. -/
def c4Item : CartItem := exCartItem "m1" "b1" 2 12

/-- C4 example: one-item cart. -/
def c4Cart : List CartItem := [c4Item]

/-- C5 example: cart item at quantity 1. -/
def c5Item : CartItem := exCartItem "m1" "b1" 1 5

/-- C5 example: one-item cart. -/
def c5Cart : List CartItem := [c5Item]

/-- C6 example: checkout state with a discount of 150 percent. -/
def c6State : BillingState := ⟨[exCartItem "m1" "b1" 1 5], "", "", 150, .cash, none, "", []⟩

/-- C8 example: checkout state with customer data, a discount and a pending
search. -/
def c8State : BillingState :=
  ⟨[exCartItem "m1" "b1" 2 5], "Sita Sharma", "9841000000", 10, .cash, some "OLD", "para", []⟩

/-- C9 example: checkout state paying by credit. -/
def c9State : BillingState := ⟨[exCartItem "m1" "b1" 2 5], "", "", 0, .credit, none, "", []⟩

/-- C10 example: first cart item. -/
def c10ItemA : CartItem := exCartItem "m1" "b1" 1 5

/-- C10 example: second cart item. -/
def c10ItemB : CartItem := exCartItem "m2" "b2" 1 6

/-- C10 example: two-item cart. -/
def c10Cart : List CartItem := [c10ItemA, c10ItemB]

/-- C10 example: three units of the first medicine available. -/
def c10MData : MedicineData := exMedicineData "m1" 3 [exBatch "b1" "2027-01-01" 3 5]

/-! ## Helper lemmas -/

/-- Auxiliary: a foldl-accumulated sum equals the accumulator plus the sum of
the mapped list. -/
theorem foldl_add_map_sum (f : CartItem → Rat) (l : List CartItem) :
    ∀ a : Rat, l.foldl (fun sum item => sum + f item) a = a + (l.map f).sum := by
  induction l with
  | nil => intro a; simp
  | cons x xs ih => intro a; simp [ih, add_assoc]

/-- Auxiliary: mapping an id-preserving, quantity-lower-bound-preserving
update over a cart preserves the cart invariant. -/
theorem cartInv_map (cart : List CartItem) (f : CartItem → CartItem)
    (hid : ∀ item, (f item).medicine.id = item.medicine.id)
    (hq : ∀ item ∈ cart, 1 ≤ item.quantity → 1 ≤ (f item).quantity)
    (h : CartInv cart) : CartInv (cart.map f) := by
  obtain ⟨h1, h2⟩ := h
  constructor
  · intro item hm
    rcases List.mem_map.1 hm with ⟨it, hit, rfl⟩
    exact hq it hit (h1 it hit)
  · rw [List.pairwise_map]
    exact h2.imp (fun hab => by rw [hid, hid]; exact hab)

/-- Auxiliary: filtering a cart preserves the cart invariant. -/
theorem cartInv_filter (cart : List CartItem) (p : CartItem → Bool)
    (h : CartInv cart) : CartInv (cart.filter p) := by
  obtain ⟨h1, h2⟩ := h
  exact ⟨fun item hm => h1 item (List.mem_of_mem_filter hm),
    h2.sublist (List.filter_sublist cart)⟩

/-- Auxiliary: on a stocked payload whose medicine is already in the cart with
enough available stock, `addToCart` increments that item by one. -/
theorem addToCart_existing_ok (d : MedicineData) (b : BatchInfo) (rest : List BatchInfo)
    (cart : List CartItem) (existingItem : CartItem)
    (hb : d.batches = b :: rest) (hs : d.hasStock = true)
    (hfind : findCartItem cart d.id = some existingItem)
    (hle : existingItem.quantity + 1 ≤ d.availableStock) :
    addToCart d cart
      = ⟨cart.map (fun item =>
            if item.medicine.id == d.id then
              { item with quantity := item.quantity + 1 }
            else item),
          none⟩ := by
  have hngt : ¬ existingItem.quantity + 1 > d.availableStock := not_lt.mpr hle
  simp [addToCart, hb, hs, mkMedicine, hfind, hngt]

/-- Auxiliary: on a stocked payload whose medicine is not yet in the cart,
`addToCart` appends a quantity-1 item referencing the head (earliest-expiry)
batch. -/
theorem addToCart_new (d : MedicineData) (b : BatchInfo) (rest : List BatchInfo)
    (cart : List CartItem)
    (hb : d.batches = b :: rest) (hs : d.hasStock = true)
    (hfind : findCartItem cart d.id = none) :
    addToCart d cart
      = ⟨cart ++ [{ medicine := mkMedicine d, inventory := mkInventory d b,
                    quantity := 1, unitPrice := b.sellingPrice }], none⟩ := by
  simp [addToCart, hb, hs, mkMedicine, hfind]

/-- Auxiliary: `addToCart` against an insufficient availability snapshot
refuses the add and reports the snapshot value. -/
theorem addToCart_insufficient (d : MedicineData) (b : BatchInfo) (rest : List BatchInfo)
    (cart : List CartItem) (existingItem : CartItem)
    (hb : d.batches = b :: rest) (hs : d.hasStock = true)
    (hfind : findCartItem cart d.id = some existingItem)
    (hgt : existingItem.quantity + 1 > d.availableStock) :
    addToCart d cart = ⟨cart, some (.insufficientStock d.availableStock)⟩ := by
  simp [addToCart, hb, hs, mkMedicine, hfind, hgt]

/-- Auxiliary: when no error is reported for a medicine already in the cart,
the requested quantity was within the availability snapshot. -/
theorem addToCart_err_none_le (d : MedicineData) (cart : List CartItem)
    (existingItem : CartItem)
    (hfind : findCartItem cart d.id = some existingItem)
    (herr : (addToCart d cart).err = none) :
    existingItem.quantity + 1 ≤ d.availableStock := by
  by_contra hgt
  push_neg at hgt
  rcases hb : d.batches with _ | ⟨b, rest⟩
  · rw [show addToCart d cart = ⟨cart, some .noStock⟩ by simp [addToCart, hb]] at herr
    simp at herr
  · cases hs : d.hasStock
    · rw [show addToCart d cart = ⟨cart, some .noStock⟩ by simp [addToCart, hb, hs]] at herr
      simp at herr
    · rw [addToCart_insufficient d b rest cart existingItem hb hs hfind hgt] at herr
      simp at herr

/-- Auxiliary: an update that would drop the quantity to zero or below removes
the item and reports no error. -/
theorem updateQuantity_drop (cart : List CartItem) (medicineId : String) (delta : Int)
    (fetched : Option (List BatchInfo)) (item : CartItem)
    (hfind : cart.find? (fun it => it.medicine.id == medicineId) = some item)
    (hle : item.quantity + delta ≤ 0) :
    updateQuantity cart medicineId delta fetched
      = ⟨removeFromCart cart medicineId, none⟩ := by
  simp [updateQuantity, hfind, hle]

/-- Auxiliary: an update beyond the freshly fetched total is refused and
reports that total. -/
theorem updateQuantity_insufficient (cart : List CartItem) (medicineId : String)
    (delta : Int) (batches : List BatchInfo) (item : CartItem)
    (hfind : cart.find? (fun it => it.medicine.id == medicineId) = some item)
    (hpos : 0 < item.quantity + delta)
    (hgt : item.quantity + delta > batchTotal batches) :
    updateQuantity cart medicineId delta (some batches)
      = ⟨cart, some (.insufficientStock (batchTotal batches))⟩ := by
  have hnle : ¬ item.quantity + delta ≤ 0 := not_le.mpr hpos
  simp [updateQuantity, hfind, hnle, hgt]

/-- Auxiliary: a within-bounds update rewrites the quantity of the targeted
item. -/
theorem updateQuantity_set (cart : List CartItem) (medicineId : String) (delta : Int)
    (fetched : Option (List BatchInfo)) (item : CartItem)
    (hfind : cart.find? (fun it => it.medicine.id == medicineId) = some item)
    (hpos : 0 < item.quantity + delta)
    (hok : ∀ batches ∈ fetched, item.quantity + delta ≤ batchTotal batches) :
    updateQuantity cart medicineId delta fetched
      = ⟨cart.map (fun it =>
            if it.medicine.id == medicineId then
              { it with quantity := item.quantity + delta }
            else it),
          none⟩ := by
  have hnle : ¬ item.quantity + delta ≤ 0 := not_le.mpr hpos
  cases fetched with
  | none => simp [updateQuantity, hfind, hnle]
  | some batches =>
    have hngt : ¬ item.quantity + delta > batchTotal batches :=
      not_lt.mpr (hok batches rfl)
    simp [updateQuantity, hfind, hnle, hngt]

/-- Auxiliary: when a stock-checked update reports no error and the new
quantity is positive, the new quantity was within the fetched total. -/
theorem updateQuantity_err_none_le (cart : List CartItem) (medicineId : String)
    (delta : Int) (batches : List BatchInfo) (item : CartItem)
    (hfind : cart.find? (fun it => it.medicine.id == medicineId) = some item)
    (hpos : 0 < item.quantity + delta)
    (herr : (updateQuantity cart medicineId delta (some batches)).err = none) :
    item.quantity + delta ≤ batchTotal batches := by
  by_contra hgt
  push_neg at hgt
  rw [updateQuantity_insufficient cart medicineId delta batches item hfind hpos hgt] at herr
  simp at herr

/-- Auxiliary: a non-erroring add on an already-present medicine is exactly
the increment-by-one map. -/
theorem addToCart_err_none_existing (d : MedicineData) (cart : List CartItem)
    (existingItem : CartItem)
    (hfind : findCartItem cart d.id = some existingItem)
    (herr : (addToCart d cart).err = none) :
    (addToCart d cart).cart
      = cart.map (fun item =>
          if item.medicine.id == d.id then
            { item with quantity := item.quantity + 1 }
          else item) := by
  rcases hb : d.batches with _ | ⟨b, rest⟩
  · rw [show addToCart d cart = ⟨cart, some .noStock⟩ by simp [addToCart, hb]] at herr
    simp at herr
  · cases hs : d.hasStock
    · rw [show addToCart d cart = ⟨cart, some .noStock⟩ by simp [addToCart, hb, hs]] at herr
      simp at herr
    · have hle := addToCart_err_none_le d cart existingItem hfind herr
      rw [addToCart_existing_ok d b rest cart existingItem hb hs hfind hle]

/-- Auxiliary: `addToCart` preserves the cart invariant. -/
theorem cartInv_addToCart (d : MedicineData) (cart : List CartItem)
    (h : CartInv cart) : CartInv (addToCart d cart).cart := by
  rcases hb : d.batches with _ | ⟨b, rest⟩
  · simpa [addToCart, hb] using h
  · cases hs : d.hasStock
    · simpa [addToCart, hb, hs] using h
    · rcases hfind : findCartItem cart d.id with _ | existingItem
      · rw [addToCart_new d b rest cart hb hs hfind]
        obtain ⟨h1, h2⟩ := h
        constructor
        · intro item hm
          rcases List.mem_append.1 hm with hm | hm
          · exact h1 item hm
          · simp only [List.mem_singleton] at hm
            subst hm
            exact le_refl 1
        · rw [List.pairwise_append]
          refine ⟨h2, List.pairwise_singleton _ _, ?_⟩
          intro a ha c hc
          simp only [List.mem_singleton] at hc
          subst hc
          have hne := List.find?_eq_none.1 hfind a ha
          intro hEq
          exact hne (by simp [mkMedicine] at hEq ⊢; exact hEq)
      · by_cases hle : existingItem.quantity + 1 ≤ d.availableStock
        · rw [addToCart_existing_ok d b rest cart existingItem hb hs hfind hle]
          refine cartInv_map cart _ (fun item => ?_) (fun item hm h1 => ?_) h
          · by_cases hc : item.medicine.id == d.id <;> simp [hc]
          · by_cases hc : item.medicine.id == d.id <;> simp [hc] <;> omega
        · push_neg at hle
          rw [addToCart_insufficient d b rest cart existingItem hb hs hfind hle]
          exact h

/-- Auxiliary: `updateQuantity` preserves the cart invariant. -/
theorem cartInv_updateQuantity (cart : List CartItem) (medicineId : String)
    (delta : Int) (fetched : Option (List BatchInfo)) (h : CartInv cart) :
    CartInv (updateQuantity cart medicineId delta fetched).cart := by
  rcases hfind : cart.find? (fun it => it.medicine.id == medicineId) with _ | item
  · simpa [updateQuantity, hfind] using h
  · by_cases hle : item.quantity + delta ≤ 0
    · rw [updateQuantity_drop cart medicineId delta fetched item hfind hle]
      exact cartInv_filter cart _ h
    · push_neg at hle
      have hset : ∀ q : Int, 1 ≤ q →
          CartInv (cart.map (fun it =>
            if it.medicine.id == medicineId then { it with quantity := q } else it)) := by
        intro q hq
        refine cartInv_map cart _ (fun it => ?_) (fun it hm h1 => ?_) h
        · by_cases hc : it.medicine.id == medicineId <;> simp [hc]
        · by_cases hc : it.medicine.id == medicineId <;> simp [hc] <;> omega
      rcases fetched with _ | batches
      · rw [updateQuantity_set cart medicineId delta none item hfind hle
          (fun bs hbs => by simp at hbs)]
        exact hset _ (by omega)
      · by_cases hgt : item.quantity + delta > batchTotal batches
        · rw [updateQuantity_insufficient cart medicineId delta batches item hfind hle hgt]
          exact h
        · push_neg at hgt
          rw [updateQuantity_set cart medicineId delta (some batches) item hfind hle
            (fun bs hbs => by simp at hbs; subst hbs; exact hgt)]
          exact hset _ (by omega)

/-! ## Claim theorems -/

/-- C2: for every cart and discount percentage, `calculateTotals` returns
subtotal = Σ quantity × unit price, discount = subtotal × pct / 100,
VAT = 13% of (subtotal − discount), total = (subtotal − discount) + VAT, and
the per-line subtotals submitted with the sale sum exactly to that subtotal. -/
theorem calculateTotals_spec (s : BillingState) :
    (calculateTotals s.cart s.discountPercentage).subtotal
        = (s.cart.map (fun item => item.unitPrice * (item.quantity : Rat))).sum
    ∧ (calculateTotals s.cart s.discountPercentage).discount
        = (calculateTotals s.cart s.discountPercentage).subtotal * s.discountPercentage / 100
    ∧ (calculateTotals s.cart s.discountPercentage).vatAmount
        = ((calculateTotals s.cart s.discountPercentage).subtotal
            - (calculateTotals s.cart s.discountPercentage).discount) * 13 / 100
    ∧ (calculateTotals s.cart s.discountPercentage).total
        = ((calculateTotals s.cart s.discountPercentage).subtotal
            - (calculateTotals s.cart s.discountPercentage).discount)
          + (calculateTotals s.cart s.discountPercentage).vatAmount
    ∧ ((buildSaleData s).items.map SaleItem.subtotal).sum
        = (calculateTotals s.cart s.discountPercentage).subtotal := by
  refine ⟨?_, rfl, rfl, rfl, ?_⟩
  · simpa using foldl_add_map_sum (fun item => item.unitPrice * (item.quantity : Rat)) s.cart 0
  · show ((s.cart.map mkSaleItem).map SaleItem.subtotal).sum = _
    rw [List.map_map]
    have h := foldl_add_map_sum (fun item => item.unitPrice * (item.quantity : Rat)) s.cart 0
    simp [calculateTotals, Function.comp_def, mkSaleItem, h]

/-- C9: every submitted checkout payload carries paymentStatus `"paid"`,
amountPaid equal to the computed total and amountDue 0, while the payment
method — including credit — is carried over unchanged; a checkout on a
nonempty cart submits exactly this payload. -/
theorem checkout_payment_fields (s : BillingState) (invoiceId : String) :
    (buildSaleData s).paymentStatus = "paid"
    ∧ (buildSaleData s).amountPaid = (calculateTotals s.cart s.discountPercentage).total
    ∧ (buildSaleData s).amountDue = 0
    ∧ (buildSaleData s).paymentMethod = s.paymentMethod
    ∧ (s.cart ≠ [] →
        (handleCheckout s (some invoiceId)).2 = .success (buildSaleData s) invoiceId) := by
  refine ⟨rfl, rfl, rfl, rfl, fun h => ?_⟩
  simp [handleCheckout, List.length_eq_zero, h]

/-- C9 witness: the credit-method example state submits the paid-in-full
payload. -/
theorem checkout_payment_fields_witness :
    c9State.cart ≠ []
    ∧ (handleCheckout c9State (some "INV-9")).2 = .success (buildSaleData c9State) "INV-9" :=
  ⟨by decide, (checkout_payment_fields c9State "INV-9").2.2.2.2 (by decide)⟩

/-- C8: a failed checkout — empty cart, or a failed/unsuccessful `createSale`
(which is how insufficient stock surfaces at checkout time) — leaves the
component state unchanged, so cart, customer name, customer mobile and
discount keep their pre-checkout values; only a successful checkout resets
them. -/
theorem checkout_frame (s : BillingState) (response : Option String) (invoiceId : String) :
    ((handleCheckout s none).1 = s)
    ∧ (s.cart = [] → (handleCheckout s response).1 = s)
    ∧ (s.cart ≠ [] →
        (handleCheckout s (some invoiceId)).1
          = { s with cart := [], customerName := "", customerMobile := "",
                     discountPercentage := 0, lastInvoiceId := some invoiceId,
                     searchQuery := "", searchResults := [] }) := by
  refine ⟨?_, fun h => ?_, fun h => ?_⟩
  · unfold handleCheckout
    split <;> rfl
  · simp [handleCheckout, h]
  · simp [handleCheckout, List.length_eq_zero, h]

/-- C8 witness: a successful checkout on the example state resets the four
fields and records the invoice id. -/
theorem checkout_frame_witness :
    c8State.cart ≠ []
    ∧ ((handleCheckout c8State (some "INV-8")).1
        = { c8State with
            cart := [], customerName := "", customerMobile := "",
            discountPercentage := 0, lastInvoiceId := some "INV-8",
            searchQuery := "", searchResults := [] }) :=
  ⟨by decide, (checkout_frame c8State (some "INV-8") "INV-8").2.2 (by decide)⟩

/-- C6 (amended): neither the change handler nor `handleCheckout` validates
the discount range; a checkout with a nonempty cart proceeds for every
discount percentage — including values outside [0, 100] — and the created
sale carries exactly that discount. -/
theorem discount_not_validated (s : BillingState) (invoiceId : String)
    (h : s.cart ≠ []) :
    (handleCheckout s (some invoiceId)).2 = .success (buildSaleData s) invoiceId
    ∧ (buildSaleData s).discountPercentage = s.discountPercentage := by
  refine ⟨?_, rfl⟩
  simp [handleCheckout, List.length_eq_zero, h]

/-- C6 counterexample: a checkout with discount percentage 150 — outside
[0, 100] — is not rejected before store access: it proceeds, succeeds, and
the submitted sale records discount percentage 150. -/
theorem discount_not_validated_cex :
    ((handleCheckout c6State (some "INV-6")).2).isSuccess = true
    ∧ (buildSaleData c6State).discountPercentage = 150
    ∧ (100 : Rat) < 150 :=
  ⟨by decide, rfl, by norm_num⟩

/-- C6 witness: the amended theorem applied to the discount-150 state. -/
theorem discount_not_validated_witness :
    c6State.cart ≠ []
    ∧ ((handleCheckout c6State (some "INV-6W")).2
          = .success (buildSaleData c6State) "INV-6W"
        ∧ (buildSaleData c6State).discountPercentage = c6State.discountPercentage) :=
  ⟨by decide, discount_not_validated c6State "INV-6W" (by decide)⟩

/-- C5 (amended): a quantity request that drops an item to 0 or below is
neither rejected as invalid input nor classified as insufficient stock: the
code silently removes the item from the cart and reports no error at all. -/
theorem zero_quantity_removes (cart : List CartItem) (medicineId : String)
    (delta : Int) (fetched : Option (List BatchInfo)) (item : CartItem)
    (hfind : cart.find? (fun it => it.medicine.id == medicineId) = some item)
    (hle : item.quantity + delta ≤ 0) :
    updateQuantity cart medicineId delta fetched
      = ⟨removeFromCart cart medicineId, none⟩ :=
  updateQuantity_drop cart medicineId delta fetched item hfind hle

/-- C5 counterexample: on a one-item cart at quantity 1, the request that
takes the quantity to 0 succeeds silently (no error, the item is removed) —
it is not rejected as invalid input. -/
theorem zero_quantity_removes_cex :
    updateQuantity c5Cart "m1" (-1) none = ⟨[], none⟩ := by decide

/-- C5 witness: the amended theorem applied to the one-item cart. -/
theorem zero_quantity_removes_witness :
    c5Cart.find? (fun it => it.medicine.id == "m1") = some c5Item
    ∧ c5Item.quantity + (-1) ≤ 0
    ∧ updateQuantity c5Cart "m1" (-1) (some [])
        = ⟨removeFromCart c5Cart "m1", none⟩ :=
  ⟨by decide, by decide,
    zero_quantity_removes c5Cart "m1" (-1) (some []) c5Item (by decide) (by decide)⟩

/-- C4 (amended): when the availability information is at hand — the
`availableStock` snapshot for a re-add, a successfully fetched batch list for
an update — a request exceeding it fails with the insufficient-stock error
carrying the actually-available quantity and the cart is left unchanged (no
partial allocation is committed; the client never writes stock); when the
stock fetch fails the check is skipped entirely and the update is committed
without any error (see the counterexample). -/
theorem insufficient_stock_rejected (d : MedicineData) (b : BatchInfo)
    (rest : List BatchInfo) (cart : List CartItem) (existingItem : CartItem)
    (medicineId : String) (delta : Int) (batches : List BatchInfo) (item : CartItem)
    (hb : d.batches = b :: rest) (hs : d.hasStock = true)
    (hfind : findCartItem cart d.id = some existingItem)
    (hgt : d.availableStock < existingItem.quantity + 1)
    (hfind2 : cart.find? (fun it => it.medicine.id == medicineId) = some item)
    (hpos : 0 < item.quantity + delta)
    (hgt2 : batchTotal batches < item.quantity + delta) :
    addToCart d cart = ⟨cart, some (.insufficientStock d.availableStock)⟩
    ∧ updateQuantity cart medicineId delta (some batches)
        = ⟨cart, some (.insufficientStock (batchTotal batches))⟩ :=
  ⟨addToCart_insufficient d b rest cart existingItem hb hs hfind hgt,
    updateQuantity_insufficient cart medicineId delta batches item hfind2 hpos hgt2⟩

/-- C4 witness: a cart already holding the two available units; the third add
and a +5 update are both refused with the available quantity, leaving the
cart unchanged. -/
theorem insufficient_stock_rejected_witness :
    c4MData.batches = c4Batch :: [] ∧ c4MData.hasStock = true
    ∧ findCartItem c4Cart c4MData.id = some c4Item
    ∧ c4MData.availableStock < c4Item.quantity + 1
    ∧ c4Cart.find? (fun it => it.medicine.id == "m1") = some c4Item
    ∧ 0 < c4Item.quantity + 5
    ∧ batchTotal [c4Batch] < c4Item.quantity + 5
    ∧ (addToCart c4MData c4Cart
          = ⟨c4Cart, some (.insufficientStock c4MData.availableStock)⟩
        ∧ updateQuantity c4Cart "m1" 5 (some [c4Batch])
            = ⟨c4Cart, some (.insufficientStock (batchTotal [c4Batch]))⟩) := by
  refine ⟨rfl, rfl, by decide, by decide, by decide, by decide, by decide, ?_⟩
  exact insufficient_stock_rejected c4MData c4Batch [] c4Cart c4Item "m1" 5 [c4Batch]
    c4Item rfl rfl (by decide) (by decide) (by decide) (by decide) (by decide)

/-- C4 counterexample: when `getMedicineBatches` fails or responds
unsuccessfully, the `catch` in `updateQuantity` only logs and the stock check
is skipped: with 2 units actually available (batch b1), the +5 update that
takes the cart item to quantity 7 is committed silently with no error — the
insufficient request does not fail, refuting the unconditional claim. -/
theorem insufficient_stock_rejected_cex :
    batchTotal [c4Batch] < c4Item.quantity + 5
    ∧ (updateQuantity c4Cart "m1" 5 none).err = none
    ∧ ((updateQuantity c4Cart "m1" 5 none).cart.map (fun it => (it.medicine.id, it.quantity)))
        = [("m1", 7)] := by decide

/-- C1 (amended): allocation never splits across batches — a newly added cart
item references the single earliest-expiring batch `batches[0]` with quantity
1; a non-erroring re-add increments a quantity but introduces no new batch
reference; and checkout submits exactly one sale line per cart item,
referencing the single batch of that item, so the quantity of a line is
bounded only by the cross-batch `availableStock` snapshot and can exceed the
quantity-on-hand of the one batch it references. -/
theorem single_batch_allocation (d : MedicineData) (b : BatchInfo)
    (rest : List BatchInfo) (cart : List CartItem) (existingItem : CartItem)
    (s : BillingState)
    (hb : d.batches = b :: rest) (hs : d.hasStock = true) :
    (findCartItem cart d.id = none →
      (addToCart d cart).cart
        = cart ++ [{ medicine := mkMedicine d, inventory := mkInventory d b,
                     quantity := 1, unitPrice := b.sellingPrice }])
    ∧ (findCartItem cart d.id = some existingItem →
        (addToCart d cart).err = none →
        ∀ item ∈ (addToCart d cart).cart,
          item.inventory ∈ cart.map CartItem.inventory)
    ∧ (buildSaleData s).items = s.cart.map mkSaleItem := by
  refine ⟨fun hfind => ?_, fun hfind herr => ?_, rfl⟩
  · rw [addToCart_new d b rest cart hb hs hfind]
  · rw [addToCart_err_none_existing d cart existingItem hfind herr]
    intro item hm
    rcases List.mem_map.1 hm with ⟨it, hit, rfl⟩
    by_cases hc : it.medicine.id == d.id <;> simp [hc] <;> exact ⟨it, hit, rfl⟩

/-- C1 counterexample: with batches b1 (quantity 1, earliest expiry) and b2
(quantity 5), two adds both pass the cross-batch availability check (6
available), and the submitted sale consists of a single line of quantity 2
referencing batch b1 alone, whose quantity-on-hand is 1 — not one line per
batch consumed, and the quantity of the line exceeds the quantity of the one
batch it references. -/
theorem single_batch_allocation_cex :
    c1CartA.err = none ∧ c1CartB.err = none
    ∧ ((buildSaleData c1State).items.map (fun l => (l.inventory, l.quantity)))
        = [("b1", 2)]
    ∧ (c1MData.batches.map (fun bi => (bi.batchId, bi.quantity)))
        = [("b1", 1), ("b2", 5)] := by decide

/-- C1 witness: the amended theorem applied to the example medicine and the
empty cart. -/
theorem single_batch_allocation_witness :
    c1MData.batches
        = exBatch "b1" "2026-01-01" 1 10 :: [exBatch "b2" "2027-01-01" 5 10]
    ∧ c1MData.hasStock = true
    ∧ (addToCart c1MData []).cart = [] ++ [c1NewItem]
    ∧ (buildSaleData c1State).items = c1State.cart.map mkSaleItem := by
  have h := single_batch_allocation c1MData (exBatch "b1" "2026-01-01" 1 10)
    [exBatch "b2" "2027-01-01" 5 10] [] dummyItem c1State rfl rfl
  exact ⟨rfl, rfl, h.1 rfl, h.2.2⟩

/-- C3 (amended): the client bounds each single cart operation by the
availability snapshot used in that very call — a non-erroring add keeps the
incremented quantity within `availableStock`, and a non-erroring
stock-checked update keeps the new quantity within the freshly fetched batch
total — but nothing serializes concurrent checkouts, so the per-batch
oversell invariant does not hold across carts (see the counterexample). -/
theorem snapshot_bound (d : MedicineData) (cart : List CartItem)
    (existingItem : CartItem) (medicineId : String) (delta : Int)
    (batches : List BatchInfo) (item : CartItem)
    (hfind : findCartItem cart d.id = some existingItem)
    (herr : (addToCart d cart).err = none)
    (hfind2 : cart.find? (fun it => it.medicine.id == medicineId) = some item)
    (hpos : 0 < item.quantity + delta)
    (herr2 : (updateQuantity cart medicineId delta (some batches)).err = none) :
    existingItem.quantity + 1 ≤ d.availableStock
    ∧ item.quantity + delta ≤ batchTotal batches :=
  ⟨addToCart_err_none_le d cart existingItem hfind herr,
    updateQuantity_err_none_le cart medicineId delta batches item hfind2 hpos herr2⟩

/-- C3 counterexample: two cashiers independently run six adds against the
same snapshot (one batch, quantity 10, ten available); every client-side
check passes, yet the two submitted sales jointly allocate 12 units from the
batch that only ever received 10 — the oversell invariant fails under this
interleaving of concurrent checkouts. -/
theorem snapshot_bound_cex :
    (c3AddLoop 6).err = none
    ∧ allocatedFrom [c3SaleA, c3SaleB] "b1" = 12
    ∧ (c3MData.batches.map (fun bi => (bi.batchId, bi.quantity))) = [("b1", 10)]
    ∧ (10 : Int) < 12 := by decide

/-- C3 witness: the single-call snapshot bound at the example data. -/
theorem snapshot_bound_witness :
    c3WItem.quantity + 1 ≤ c3WData.availableStock
    ∧ c3WItem.quantity + 1 ≤ batchTotal [c3WBatch] :=
  snapshot_bound c3WData c3WCart c3WItem "m1" 1 [c3WBatch] c3WItem
    (by decide) (by decide) (by decide) (by decide) (by decide)

/-- C10: the cart invariant — every item has quantity at least 1 and at most
one item per medicine identity — is preserved by `addToCart`,
`updateQuantity` and `removeFromCart`; a non-erroring `addToCart` on a
medicine already in the cart is exactly the increment-by-one map (no
duplicate entry is added); and an update dropping a quantity to 0 or below
removes the item. -/
theorem cart_invariant (d : MedicineData) (cart : List CartItem)
    (medicineId dropId : String) (delta dropDelta : Int)
    (fetched dropFetched : Option (List BatchInfo))
    (existingItem dropItem : CartItem)
    (hinv : CartInv cart)
    (hfind : findCartItem cart d.id = some existingItem)
    (herr : (addToCart d cart).err = none)
    (hfind2 : cart.find? (fun it => it.medicine.id == dropId) = some dropItem)
    (hle : dropItem.quantity + dropDelta ≤ 0) :
    CartInv (addToCart d cart).cart
    ∧ CartInv (updateQuantity cart medicineId delta fetched).cart
    ∧ CartInv (removeFromCart cart medicineId)
    ∧ ((addToCart d cart).cart
        = cart.map (fun item =>
            if item.medicine.id == d.id then
              { item with quantity := item.quantity + 1 }
            else item))
    ∧ updateQuantity cart dropId dropDelta dropFetched
        = ⟨removeFromCart cart dropId, none⟩ :=
  ⟨cartInv_addToCart d cart hinv,
    cartInv_updateQuantity cart medicineId delta fetched hinv,
    cartInv_filter cart _ hinv,
    addToCart_err_none_existing d cart existingItem hfind herr,
    updateQuantity_drop cart dropId dropDelta dropFetched dropItem hfind2 hle⟩

/-- C10 witness: the two-item cart, an in-stock re-add of the first medicine
and a drop-to-zero update of the second. -/
theorem cart_invariant_witness :
    CartInv c10Cart
    ∧ findCartItem c10Cart c10MData.id = some c10ItemA
    ∧ (addToCart c10MData c10Cart).err = none
    ∧ c10Cart.find? (fun it => it.medicine.id == "m2") = some c10ItemB
    ∧ c10ItemB.quantity + (-1) ≤ 0
    ∧ (CartInv (addToCart c10MData c10Cart).cart
        ∧ CartInv (updateQuantity c10Cart "m1" 1 none).cart
        ∧ CartInv (removeFromCart c10Cart "m1")
        ∧ ((addToCart c10MData c10Cart).cart
            = c10Cart.map (fun item =>
                if item.medicine.id == c10MData.id then
                  { item with quantity := item.quantity + 1 }
                else item))
        ∧ updateQuantity c10Cart "m2" (-1) none
            = ⟨removeFromCart c10Cart "m2", none⟩) := by
  have h := cart_invariant c10MData c10Cart "m1" "m2" 1 (-1) none none c10ItemA c10ItemB
    ⟨by decide, by decide⟩ (by decide) (by decide) (by decide) (by decide)
  exact ⟨⟨by decide, by decide⟩, by decide, by decide, by decide, by decide, h⟩

end ClientPh
